import Mathlib

/-!
# RAMKAR MFS v2.6 decision engine — shallow embedding and verification

This file embeds the decision-engine core of `app.py` (the RAMKAR MFS v2.6
Streamlit dashboard) in Lean 4 and proves properties of it.  The embedded
part is the pure computation: data validation (`validate_data`), the five
factor scorers, the kill-switch gates, weighted aggregation, the hysteresis
regime state machine (`get_regime_with_hysteresis`), and the budget
adjustment (the `CALCULATIONS` block, lines 399-462 of `app.py`).

Modelling conventions:
* Python floats are modelled as exact rationals (`ℚ`); the thresholds and
  inputs involved are short decimals, and `round` is modelled as exact
  round-half-to-even (`roundHalfEven`), which is Python 3 round on exact
  values.
* Python ints are `ℤ` (scores) and `ℕ` (the pending-week counter, which the
  UI constrains to 0..5).
* The `previous_regime` argument, a string that may be `None` or `""` in the
  source, is `Option Regime`; the caller (line 447) maps `""` to `None`.
* The message strings of the source are kept where they are constant; the
  interpolated numbers in them are written out (they interpolate constants).
-/

namespace MFS

/-- The four risk regimes, strings "ON" / "NEUTRAL" / "OFF" / "OFF-KILL" in
`app.py`. -/
inductive Regime
  | ON
  | NEUTRAL
  | OFF
  | OFFKILL
deriving DecidableEq, Repr

/-! ## Configuration constants (`app.py` lines 32-73) -/

def TH_K1_USDTRY_SHOCK : ℚ := 0.05

def TH_K2_CDS_SPIKE : ℚ := 100.0

def TH_K2_CDS_LEVEL : ℚ := 700.0

def TH_K3_VIX : ℚ := 35.0

def TH_K3_SP500 : ℚ := -0.03

def TH_K4_XBANK_DROP : ℚ := -0.05

def TH_K4_XU100_STABLE : ℚ := -0.01

def TH_K5_VOLUME_FLOOR : ℚ := 0.5

def HYSTERESIS_ON_TO_NEUTRAL : ℤ := 57

def HYSTERESIS_NEUTRAL_TO_ON : ℤ := 63

def HYSTERESIS_NEUTRAL_TO_OFF : ℤ := 37

def HYSTERESIS_OFF_TO_NEUTRAL : ℤ := 43

def HYSTERESIS_CONFIRM_WEEKS : ℕ := 2

def DATA_LIMITS_USDTRY_MAX_WEEKLY : ℚ := 0.10

def DATA_LIMITS_USDTRY_WARN_WEEKLY : ℚ := 0.05

def DATA_LIMITS_CDS_MAX_WEEKLY : ℚ := 150

def DATA_LIMITS_CDS_WARN_WEEKLY : ℚ := 75

def DATA_LIMITS_CDS_MIN : ℚ := 50

def DATA_LIMITS_CDS_MAX : ℚ := 1500

def DATA_LIMITS_VIX_MIN : ℚ := 8

def DATA_LIMITS_VIX_MAX : ℚ := 60

def BUDGET_REDUCTIONS_K4 : ℚ := 0.25

def BUDGET_REDUCTIONS_K5 : ℚ := 0.15

def W_doviz : ℚ := 0.30

def W_cds : ℚ := 0.25

def W_global : ℚ := 0.25

def W_faiz : ℚ := 0.15

def W_likidite : ℚ := 0.05

/-- `BASE_BUDGETS` (lines 68-73): per regime, (max positions, max risk,
entry-stance label). -/
def BASE_BUDGETS : Regime → ℤ × ℚ × String
  | .ON => (12, 2.5, "✅ NORMAL")
  | .NEUTRAL => (7, 1.5, "✅ SEÇİCİ")
  | .OFF => (4, 1.0, "⚠️ SINIRLI")
  | .OFFKILL => (2, 0.5, "❌ YASAK")

/-! ## Helpers -/

/-- `clamp` (line 112). -/
def clamp (x lo hi : ℚ) : ℚ :=
  max lo (min hi x)

/-- Python 3 `round` to the nearest integer, ties to even, modelled exactly
on rationals (used at line 437 and, scaled by 10, at line 459). -/
def roundHalfEven (q : ℚ) : ℤ :=
  if q - ⌊q⌋ < 1/2 then ⌊q⌋
  else if q - ⌊q⌋ > 1/2 then ⌊q⌋ + 1
  else if ⌊q⌋ % 2 = 0 then ⌊q⌋ else ⌊q⌋ + 1

/-- Python `round(x, 1)`: round to one decimal place, ties to even. -/
def round1 (q : ℚ) : ℚ :=
  (roundHalfEven (q * 10) : ℚ) / 10

/-! ## Data validation (`validate_data`, lines 126-178) -/

structure ValidationResult where
  is_valid : Bool
  confidence : String
  errors : List String
  warnings : List String
deriving DecidableEq, Repr

/-- The grading tail of `validate_data` (lines 165-176): from the collected
error and warning lists, the `(confidence, is_valid)` pair. -/
def grade (errors warnings : List String) : String × Bool :=
  if errors ≠ [] then ("LOW", false)
  else if warnings.length ≥ 2 then ("MEDIUM", true)
  else if warnings ≠ [] then ("MEDIUM", true)
  else ("HIGH", true)

/-- `validate_data` (lines 126-178).  Each `if`/`elif` of the source appends
to `errors` or `warnings`; the message strings are kept recognisable but the
interpolated numbers are elided (no property depends on message text). -/
def validate_data (usdtry_wchg cds_level cds_wdelta vix_last sp500_wchg : ℚ) :
    ValidationResult :=
  let usd_ew : List String × List String :=
    if |usdtry_wchg| > DATA_LIMITS_USDTRY_MAX_WEEKLY then
      (["⛔ USDTRY haftalık değişim çok yüksek! Max ±%10 beklenir."], [])
    else if |usdtry_wchg| > DATA_LIMITS_USDTRY_WARN_WEEKLY then
      ([], ["⚠️ USDTRY haftalık değişim yüksek. Şok mu, hata mı kontrol et!"])
    else ([], [])
  let cds_level_e : List String :=
    if cds_level < DATA_LIMITS_CDS_MIN then
      ["⛔ CDS seviyesi çok düşük! Minimum 50 beklenir."]
    else if cds_level > DATA_LIMITS_CDS_MAX then
      ["⛔ CDS seviyesi çok yüksek! Maximum 1500 beklenir."]
    else []
  let cds_delta_ew : List String × List String :=
    if |cds_wdelta| > DATA_LIMITS_CDS_MAX_WEEKLY then
      (["⛔ CDS haftalık değişim çok yüksek! Max ±150 bp beklenir."], [])
    else if |cds_wdelta| > DATA_LIMITS_CDS_WARN_WEEKLY then
      ([], ["⚠️ CDS haftalık değişim yüksek. Şok mu kontrol et!"])
    else ([], [])
  let vix_e : List String :=
    if vix_last < DATA_LIMITS_VIX_MIN then
      ["⛔ VIX çok düşük! Minimum 8 beklenir."]
    else if vix_last > DATA_LIMITS_VIX_MAX then
      ["⛔ VIX çok yüksek! Maximum 60 beklenir. (Kıyamet senaryosu)"]
    else []
  let consistency1 : List String :=
    if cds_wdelta < -30 ∧ usdtry_wchg > 0.03 then
      ["🔍 Tutarsızlık: CDS düşerken TL değer kaybediyor. Veriyi kontrol et!"]
    else []
  let consistency2 : List String :=
    if cds_wdelta > 50 ∧ usdtry_wchg < -0.02 then
      ["🔍 Tutarsızlık: CDS yükselirken TL değer kazanıyor. Veriyi kontrol et!"]
    else []
  let consistency3 : List String :=
    if vix_last > 30 ∧ sp500_wchg > 0.02 then
      ["🔍 Dikkat: VIX yüksek ama S&P pozitif. Piyasa geçiş döneminde olabilir."]
    else []
  let errors := usd_ew.1 ++ cds_level_e ++ cds_delta_ew.1 ++ vix_e
  let warnings :=
    usd_ew.2 ++ cds_delta_ew.2 ++ consistency1 ++ consistency2 ++ consistency3
  let g := grade errors warnings
  ⟨g.2, g.1, errors, warnings⟩

/-! ## Hysteresis regime state machine (`get_regime_with_hysteresis`,
lines 184-247) -/

/-- The shared tail of `get_regime_with_hysteresis` (lines 239-245, reached
with a non-`None` `target_regime`): increment the pending counter and either
commit the transition or stay and report it pending. -/
def confirm_transition (previous_regime target_regime : Regime)
    (weeks_in_transition : ℕ) (transition_note : String) :
    Regime × ℕ × String :=
  let new_weeks := weeks_in_transition + 1
  if new_weeks ≥ HYSTERESIS_CONFIRM_WEEKS then
    (target_regime, 0, "✅ 2 hafta onaylandı")
  else
    (previous_regime, new_weeks, "⏳ Geçiş beklemede (" ++ transition_note ++ ")")

/-- `get_regime_with_hysteresis` (lines 184-247).  Every branch of the
source returns or reaches the `if target_regime:` tail (`confirm_transition`
here); the final `return previous_regime, 0, ""` at line 247 is unreachable
for the four regime strings. -/
def get_regime_with_hysteresis (current_score : ℤ)
    (previous_regime : Option Regime) (weeks_in_transition : ℕ)
    (hard_kill : Bool) : Regime × ℕ × String :=
  if hard_kill then
    (.OFFKILL, 0, "")
  else
    match previous_regime with
    | none =>
        if current_score ≥ 60 then (.ON, 0, "🆕 İlk değerlendirme")
        else if current_score ≥ 40 then (.NEUTRAL, 0, "🆕 İlk değerlendirme")
        else (.OFF, 0, "🆕 İlk değerlendirme")
    | some .ON =>
        if current_score < HYSTERESIS_ON_TO_NEUTRAL then
          confirm_transition .ON .NEUTRAL weeks_in_transition
            "📉 Skor 57 altına düştü"
        else (.ON, 0, "✅ ON rejiminde kalınıyor")
    | some .NEUTRAL =>
        if current_score > HYSTERESIS_NEUTRAL_TO_ON then
          confirm_transition .NEUTRAL .ON weeks_in_transition
            "📈 Skor 63 üstüne çıktı"
        else if current_score < HYSTERESIS_NEUTRAL_TO_OFF then
          confirm_transition .NEUTRAL .OFF weeks_in_transition
            "📉 Skor 37 altına düştü"
        else (.NEUTRAL, 0, "✅ NEUTRAL rejiminde kalınıyor")
    | some .OFF =>
        if current_score > HYSTERESIS_OFF_TO_NEUTRAL then
          confirm_transition .OFF .NEUTRAL weeks_in_transition
            "📈 Skor 43 üstüne çıktı"
        else (.OFF, 0, "✅ OFF rejiminde kalınıyor")
    | some .OFFKILL =>
        if current_score ≥ 60 then (.ON, 0, "🔓 Kill-switch kalktı")
        else if current_score ≥ 40 then (.NEUTRAL, 0, "🔓 Kill-switch kalktı")
        else (.OFF, 0, "🔓 Kill-switch kalktı")

/-! ## Factor scorers (lines 250-308) -/

/-- `score_doviz` (lines 250-260). -/
def score_doviz (usdtry_wchg : ℚ) : ℤ × String :=
  let c := |usdtry_wchg|
  if c < 0.005 then (100, "✅ Güvenli")
  else if c < 0.015 then (70, "⚠️ Normal")
  else if c < 0.030 then (40, "🟠 Alarm")
  else if c < 0.050 then (10, "🔴 Tehlike")
  else (0, "💀 Şok")

/-- `score_cds` (lines 263-279). -/
def score_cds (cds_level cds_wdelta : ℚ) : ℤ × String :=
  let bs : ℤ × String :=
    if cds_level < 300 then (100, "✅ Güvenli")
    else if cds_level < 400 then (70, "⚠️ Normal")
    else if cds_level < 500 then (50, "🟠 Dikkat")
    else if cds_level < 600 then (30, "🔴 Riskli")
    else if cds_level < 700 then (10, "💀 Kriz")
    else (0, "💀 Çöküş")
  if cds_wdelta > 50 then (max 0 (bs.1 - 20), bs.2) else bs

/-- `score_global` (lines 282-298). -/
def score_global (vix_last sp500_wchg : ℚ) : ℤ × String :=
  let bs : ℤ × String :=
    if vix_last < 20 then (100, "✅ Sakin")
    else if vix_last < 25 then (80, "✅ Normal")
    else if vix_last < 30 then (60, "⚠️ Gergin")
    else if vix_last < 35 then (40, "🟠 Alarm")
    else (20, "🔴 Panik")
  if sp500_wchg < -0.02 then (max 0 (bs.1 - 20), bs.2)
  else if sp500_wchg < -0.01 then (max 0 (bs.1 - 10), bs.2)
  else bs

/-- `score_likidite` (lines 301-308). -/
def score_likidite (volume_r : ℚ) : ℤ × String :=
  if volume_r ≥ 1.2 then (100, "✅ Yüksek")
  else if volume_r ≥ 0.8 then (70, "✅ Normal")
  else if volume_r ≥ 0.5 then (40, "⚠️ Düşük")
  else (10, "🔴 Kritik")

/-! ## The per-cycle calculation (`CALCULATIONS`, lines 399-462) -/

/-- One cycle's raw inputs, as read from the sidebar (lines 359-387); weekly
changes are already divided by 100 (lines 361, 372, 377, 379).  `faiz_score`
is the manually supplied rate-proxy slider value (line 387). -/
structure Observation where
  usdtry_wchg : ℚ
  cds_level : ℚ
  cds_wdelta : ℚ
  vix_last : ℚ
  sp500_wchg : ℚ
  xu100_wchg : ℚ
  xbank_wchg : ℚ
  volume_r : ℚ
  faiz_score : ℤ
deriving DecidableEq, Repr

/-- `k1_ok` (line 401). -/
def k1_ok (o : Observation) : Bool :=
  o.usdtry_wchg < TH_K1_USDTRY_SHOCK

/-- `k2_ok` (line 402). -/
def k2_ok (o : Observation) : Bool :=
  o.cds_level < TH_K2_CDS_LEVEL ∧ o.cds_wdelta < TH_K2_CDS_SPIKE

/-- `k3_ok` (line 403). -/
def k3_ok (o : Observation) : Bool :=
  ¬ (o.vix_last > TH_K3_VIX ∧ o.sp500_wchg ≤ TH_K3_SP500)

/-- `k4_ok` (line 404). -/
def k4_ok (o : Observation) : Bool :=
  ¬ (o.xbank_wchg ≤ TH_K4_XBANK_DROP ∧ o.xu100_wchg > TH_K4_XU100_STABLE)

/-- `k5_ok` (line 405). -/
def k5_ok (o : Observation) : Bool :=
  o.volume_r ≥ TH_K5_VOLUME_FLOOR

/-- `hard_kill` from the three hard gates (line 408); the manual override
(lines 411-412) is applied on top of this in `runCycle`. -/
def hard_kill_gates (o : Observation) : Bool :=
  !(k1_ok o) || !(k2_ok o) || !(k3_ok o)

/-- `soft_reduction` (lines 414-422): fixed reductions for each failing soft
gate, clamped to [0, 0.5]. -/
def soft_reduction (o : Observation) : ℚ :=
  clamp ((if !(k4_ok o) then BUDGET_REDUCTIONS_K4 else 0) +
         (if !(k5_ok o) then BUDGET_REDUCTIONS_K5 else 0)) 0.0 0.5

/-- The weighted total score (lines 437-443): `int(round(...))`. -/
def total_score (doviz cds glob faiz lik : ℤ) : ℤ :=
  roundHalfEven ((doviz : ℚ) * W_doviz + (cds : ℚ) * W_cds +
    (glob : ℚ) * W_global + (faiz : ℚ) * W_faiz + (lik : ℚ) * W_likidite)

/-- The budget adjustment (lines 456-462). -/
def adjust_budget (regime : Regime) (sr : ℚ) : ℤ × ℚ × String :=
  let b := BASE_BUDGETS regime
  if sr > 0 then
    (max 2 ⌊(b.1 : ℚ) * (1 - sr)⌋,
     round1 (b.2.1 * (1 - sr)),
     if sr ≥ 0.3 then "⚠️ DİKKATLİ" else b.2.2)
  else
    (b.1, b.2.1, b.2.2)

/-- Everything the calculation block (lines 399-462) produces for one cycle. -/
structure CycleResult where
  regime : Regime
  new_weeks : ℕ
  transition_note : String
  total : ℤ
  hard_kill : Bool
  k1 : Bool
  k2 : Bool
  k3 : Bool
  k4 : Bool
  k5 : Bool
  soft_red : ℚ
  scores_doviz : ℤ
  scores_cds : ℤ
  scores_global : ℤ
  scores_faiz : ℤ
  scores_likidite : ℤ
  adj_pos : ℤ
  adj_risk : ℚ
  adj_entry : String
deriving DecidableEq, Repr

/-- One full engine cycle (lines 399-462): gates, soft veto, factor scores,
weighted total, hysteresis regime update, budget adjustment.
`manual_override_active` forces `hard_kill` (lines 411-412).  Note that the
`faiz` entry of the `scores` dict (line 433) is the slider value passed
through unchanged. -/
def runCycle (o : Observation) (previous_regime : Option Regime)
    (weeks_pending : ℕ) (manual_override_active : Bool) : CycleResult :=
  let hk := hard_kill_gates o || manual_override_active
  let sr := soft_reduction o
  let dv := score_doviz o.usdtry_wchg
  let cd := score_cds o.cds_level o.cds_wdelta
  let gl := score_global o.vix_last o.sp500_wchg
  let lk := score_likidite o.volume_r
  let total := total_score dv.1 cd.1 gl.1 o.faiz_score lk.1
  let rg := get_regime_with_hysteresis total previous_regime weeks_pending hk
  let adj := adjust_budget rg.1 sr
  { regime := rg.1
    new_weeks := rg.2.1
    transition_note := rg.2.2
    total := total
    hard_kill := hk
    k1 := k1_ok o
    k2 := k2_ok o
    k3 := k3_ok o
    k4 := k4_ok o
    k5 := k5_ok o
    soft_red := sr
    scores_doviz := dv.1
    scores_cds := cd.1
    scores_global := gl.1
    scores_faiz := o.faiz_score
    scores_likidite := lk.1
    adj_pos := adj.1
    adj_risk := adj.2.1
    adj_entry := adj.2.2 }

/-- Iterate the regime state machine over a list of weekly total scores with
no hard kill, feeding each returned (regime, weeks) state into the next
cycle; returns the per-cycle (regime, weeks) outputs. -/
def runRegimes (scores : List ℤ) (previous_regime : Option Regime)
    (weeks : ℕ) : List (Regime × ℕ) :=
  match scores with
  | [] => []
  | s :: rest =>
      let r := get_regime_with_hysteresis s previous_regime weeks false
      (r.1, r.2.1) :: runRegimes rest (some r.1) r.2.1

/-! ## Concrete observations used in the scenario theorems -/

/-- The baseline end-to-end scenario: currency +0.8%, spread 204bp with Δ 0,
VIX 17.5, S&P +1.0%, XU100 +2.0%, XBANK +2.5%, volume ratio 1.0, rate proxy
60 (= the sidebar defaults, lines 359-387). -/
def obsBase : Observation :=
  { usdtry_wchg := 0.008
    cds_level := 204
    cds_wdelta := 0
    vix_last := 17.5
    sp500_wchg := 0.01
    xu100_wchg := 0.02
    xbank_wchg := 0.025
    volume_r := 1.0
    faiz_score := 60 }

/-- The baseline observation with a +6% currency shock, which makes gate K1
fail. -/
def obsKill : Observation :=
  { obsBase with usdtry_wchg := 0.06 }

/-- The baseline observation with an out-of-range rate-proxy value 150. -/
def obsFaiz150 : Observation :=
  { obsBase with faiz_score := 150 }

/-! ## Helper lemmas -/

/-- With `hard_kill` true the state machine returns OFF-KILL with a zero
pending counter, for every score, previous regime and counter. -/
theorem regime_of_hard_kill (s : ℤ) (p : Option Regime) (w : ℕ) :
    get_regime_with_hysteresis s p w true = (.OFFKILL, 0, "") := rfl

/-- The grading tail of `validate_data`: confidence and validity as a
function of the presence of errors and warnings. -/
theorem grade_spec (e w : List String) :
    ((grade e w).1 = "LOW" ↔ e ≠ []) ∧
    ((grade e w).1 = "MEDIUM" ↔ (e = [] ∧ w ≠ [])) ∧
    ((grade e w).1 = "HIGH" ↔ (e = [] ∧ w = [])) ∧
    ((grade e w).2 = false ↔ e ≠ []) := by
  unfold grade
  by_cases he : e = [] <;> by_cases hw : w = [] <;> simp [he, hw]

/-! ## Claims -/

/-- C1 (hard-kill dominance): for every observation and prior state, if any
of the hard gates K1, K2, K3 is false, or the manual-override flag is set,
the cycle's regime is OFF-KILL and the returned pending counter is 0,
regardless of the total score and of the previous regime. -/
theorem hard_kill_dominance (o : Observation) (previous_regime : Option Regime)
    (weeks_pending : ℕ) (manual_override_active : Bool)
    (h : k1_ok o = false ∨ k2_ok o = false ∨ k3_ok o = false ∨
      manual_override_active = true) :
    (runCycle o previous_regime weeks_pending manual_override_active).regime =
      .OFFKILL ∧
    (runCycle o previous_regime weeks_pending
      manual_override_active).new_weeks = 0 := by
  have hk : (hard_kill_gates o || manual_override_active) = true := by
    rcases h with h | h | h | h <;> simp [hard_kill_gates, h]
  constructor <;> simp [runCycle, hk, regime_of_hard_kill]

/-- C1 witness: the manual-override flag alone forces OFF-KILL on the
benign baseline observation. -/
theorem hard_kill_dominance_witness :
    (runCycle obsBase (some .ON) 0 true).regime = .OFFKILL ∧
    (runCycle obsBase (some .ON) 0 true).new_weeks = 0 :=
  hard_kill_dominance obsBase (some .ON) 0 true (Or.inr (Or.inr (Or.inr rfl)))

/-- C3 (hysteresis commit): from regime ON with pending counter 0 and no
hard kill, a score below 57 keeps ON with counter 1, and a second
consecutive sub-57 score (fed the returned state) commits to NEUTRAL with
counter 0. -/
theorem hysteresis_commit (s1 s2 : ℤ) (h1 : s1 < 57) (h2 : s2 < 57) :
    get_regime_with_hysteresis s1 (some .ON) 0 false =
      (.ON, 1, "⏳ Geçiş beklemede (📉 Skor 57 altına düştü)") ∧
    get_regime_with_hysteresis s2
      (some (get_regime_with_hysteresis s1 (some .ON) 0 false).1)
      (get_regime_with_hysteresis s1 (some .ON) 0 false).2.1 false =
      (.NEUTRAL, 0, "✅ 2 hafta onaylandı") := by
  have e1 : get_regime_with_hysteresis s1 (some .ON) 0 false =
      (.ON, 1, "⏳ Geçiş beklemede (📉 Skor 57 altına düştü)") := by
    simp [get_regime_with_hysteresis, confirm_transition,
      HYSTERESIS_ON_TO_NEUTRAL, HYSTERESIS_CONFIRM_WEEKS, h1]
  refine ⟨e1, ?_⟩
  rw [e1]
  simp [get_regime_with_hysteresis, confirm_transition,
    HYSTERESIS_ON_TO_NEUTRAL, HYSTERESIS_CONFIRM_WEEKS, h2]

/-- C3 witness: two consecutive scores of 50. -/
theorem hysteresis_commit_witness :
    get_regime_with_hysteresis 50 (some .ON) 0 false =
      (.ON, 1, "⏳ Geçiş beklemede (📉 Skor 57 altına düştü)") ∧
    get_regime_with_hysteresis 50
      (some (get_regime_with_hysteresis 50 (some .ON) 0 false).1)
      (get_regime_with_hysteresis 50 (some .ON) 0 false).2.1 false =
      (.NEUTRAL, 0, "✅ 2 hafta onaylandı") :=
  hysteresis_commit 50 50 (by decide) (by decide)

/-- C4 (hysteresis stability): starting from ON with counter 0 and no hard
kill, a score alternating between 58 and 56 over 5 chained cycles (either
phase) leaves the regime ON on every cycle. -/
theorem hysteresis_stability :
    (runRegimes [58, 56, 58, 56, 58] (some .ON) 0).map Prod.fst =
      [.ON, .ON, .ON, .ON, .ON] ∧
    (runRegimes [56, 58, 56, 58, 56] (some .ON) 0).map Prod.fst =
      [.ON, .ON, .ON, .ON, .ON] := by
  decide

/-- C5 (immediate-threshold rule): with no hard kill, both on the very first
cycle (no prior regime) and when leaving OFF-KILL, the regime is chosen with
no confirmation delay as ON if score ≥ 60, NEUTRAL if score ≥ 40, else OFF,
with pending counter 0, for every score and every input counter. -/
theorem immediate_threshold_rule (s : ℤ) (w : ℕ) :
    get_regime_with_hysteresis s none w false =
      ((if s ≥ 60 then Regime.ON else if s ≥ 40 then .NEUTRAL else .OFF), 0,
        "🆕 İlk değerlendirme") ∧
    get_regime_with_hysteresis s (some .OFFKILL) w false =
      ((if s ≥ 60 then Regime.ON else if s ≥ 40 then .NEUTRAL else .OFF), 0,
        "🔓 Kill-switch kalktı") := by
  constructor <;>
    · simp only [get_regime_with_hysteresis]
      split_ifs <;> simp_all

/-- C10 (pending-counter invariant): for every score, previous regime, hard
kill flag and every non-negative input counter (even ≥ the confirmation
window), the returned counter is strictly below the confirmation window of
2; it is 0 on a hard kill and on a first cycle, and when it is nonzero it is
exactly 1 and the regime was left unchanged (the transition is only
pending). -/
theorem pending_counter_invariant (s : ℤ) (p : Option Regime) (w : ℕ)
    (k : Bool) :
    (get_regime_with_hysteresis s p w k).2.1 < HYSTERESIS_CONFIRM_WEEKS ∧
    ((get_regime_with_hysteresis s p w k).2.1 ≠ 0 →
      (get_regime_with_hysteresis s p w k).2.1 = 1 ∧
      p = some (get_regime_with_hysteresis s p w k).1) ∧
    (k = true → (get_regime_with_hysteresis s p w k).2.1 = 0) ∧
    (p = none → (get_regime_with_hysteresis s p w k).2.1 = 0) := by
  cases k with
  | true => simp [regime_of_hard_kill, HYSTERESIS_CONFIRM_WEEKS]
  | false =>
    cases p with
    | none =>
      simp only [get_regime_with_hysteresis]
      split_ifs <;> simp [HYSTERESIS_CONFIRM_WEEKS]
    | some r =>
      cases r <;>
        · simp only [get_regime_with_hysteresis, confirm_transition,
            HYSTERESIS_CONFIRM_WEEKS]
          split_ifs <;> simp_all

/-- C10 witness: score 50 from ON with counter 0 and no kill gives the
pending counter 1 with the regime unchanged. -/
theorem pending_counter_invariant_witness :
    (get_regime_with_hysteresis 50 (some .ON) 0 false).2.1 <
      HYSTERESIS_CONFIRM_WEEKS ∧
    ((get_regime_with_hysteresis 50 (some .ON) 0 false).2.1 ≠ 0 →
      (get_regime_with_hysteresis 50 (some .ON) 0 false).2.1 = 1 ∧
      (some .ON : Option Regime) =
        some (get_regime_with_hysteresis 50 (some .ON) 0 false).1) ∧
    (false = true →
      (get_regime_with_hysteresis 50 (some .ON) 0 false).2.1 = 0) ∧
    ((some .ON : Option Regime) = none →
      (get_regime_with_hysteresis 50 (some .ON) 0 false).2.1 = 0) :=
  pending_counter_invariant 50 (some .ON) 0 false

/-- Full evaluation of one cycle on the baseline observation from prior
regime ON with pending counter 0 and no override: 0.8% currency change falls
in the second FX band (70), 204bp spread in the first credit band (100), the
weighted total is round(83.5) = 84, the regime stays ON and the budget is
the ON base budget. -/
theorem runCycle_obsBase_eval :
    runCycle obsBase (some .ON) 0 false =
      { regime := .ON, new_weeks := 0,
        transition_note := "✅ ON rejiminde kalınıyor", total := 84,
        hard_kill := false, k1 := true, k2 := true, k3 := true, k4 := true,
        k5 := true, soft_red := 0, scores_doviz := 70, scores_cds := 100,
        scores_global := 100, scores_faiz := 60, scores_likidite := 70,
        adj_pos := 12, adj_risk := 2.5, adj_entry := "✅ NORMAL" } := by
  have habs : |obsBase.usdtry_wchg| = (0.008 : ℚ) := abs_of_nonneg (by norm_num [obsBase])
  have hk1e : k1_ok obsBase = true := by
    norm_num [k1_ok, obsBase, TH_K1_USDTRY_SHOCK]
  have hk2e : k2_ok obsBase = true := by
    norm_num [k2_ok, obsBase, TH_K2_CDS_LEVEL, TH_K2_CDS_SPIKE]
  have hk3e : k3_ok obsBase = true := by
    norm_num [k3_ok, obsBase, TH_K3_VIX, TH_K3_SP500]
  have hk4e : k4_ok obsBase = true := by
    norm_num [k4_ok, obsBase, TH_K4_XBANK_DROP, TH_K4_XU100_STABLE]
  have hk5e : k5_ok obsBase = true := by
    norm_num [k5_ok, obsBase, TH_K5_VOLUME_FLOOR]
  have hHK : hard_kill_gates obsBase = false := by
    simp [hard_kill_gates, hk1e, hk2e, hk3e]
  have hmin : min (0.5 : ℚ) 0 = 0 := min_eq_right (by norm_num)
  have hmax : max (0 : ℚ) 0 = 0 := max_self 0
  have hsr : soft_reduction obsBase = 0 := by
    simp [soft_reduction, hk4e, hk5e, clamp, hmin, hmax]
    norm_num
  have hdv : score_doviz obsBase.usdtry_wchg = (70, "⚠️ Normal") := by
    norm_num [score_doviz, habs]
  have hcd : score_cds obsBase.cds_level obsBase.cds_wdelta =
      (100, "✅ Güvenli") := by
    norm_num [score_cds, obsBase]
  have hgl : score_global obsBase.vix_last obsBase.sp500_wchg =
      (100, "✅ Sakin") := by
    norm_num [score_global, obsBase]
  have hlk : score_likidite obsBase.volume_r = (70, "✅ Normal") := by
    norm_num [score_likidite, obsBase, TH_K5_VOLUME_FLOOR]
  have hfz : obsBase.faiz_score = 60 := rfl
  have harg : ((70 : ℤ) : ℚ) * W_doviz + ((100 : ℤ) : ℚ) * W_cds +
      ((100 : ℤ) : ℚ) * W_global + ((60 : ℤ) : ℚ) * W_faiz +
      ((70 : ℤ) : ℚ) * W_likidite = 167/2 := by
    norm_num [W_doviz, W_cds, W_global, W_faiz, W_likidite]
  have hfl : ⌊(167/2 : ℚ)⌋ = 83 := by norm_num
  have htot : total_score 70 100 100 60 70 = 84 := by
    unfold total_score roundHalfEven
    rw [harg, hfl]
    norm_num
  have hrg : get_regime_with_hysteresis 84 (some Regime.ON) 0 false =
      (.ON, 0, "✅ ON rejiminde kalınıyor") := by
    norm_num [get_regime_with_hysteresis, HYSTERESIS_ON_TO_NEUTRAL]
  have hadj : adjust_budget Regime.ON 0 = (12, 2.5, "✅ NORMAL") := by
    norm_num [adjust_budget, BASE_BUDGETS]
  simp [runCycle, hk1e, hk2e, hk3e, hk4e, hk5e, hHK, hsr, hdv, hcd, hgl,
    hlk, hfz, htot, hrg, hadj]

/-- C2 counterexample: on the baseline scenario input the sub-scores and
total asserted by the claim (FX=100, Credit=70, total 85) do not all hold:
the code scores FX 70 (0.8% is not below the 0.5% band edge), Credit 100
(204bp < 300bp) and total 84. -/
theorem baseline_scenario_as_specified_false :
    ¬ ((runCycle obsBase (some .ON) 0 false).k1 = true ∧
      (runCycle obsBase (some .ON) 0 false).k2 = true ∧
      (runCycle obsBase (some .ON) 0 false).k3 = true ∧
      (runCycle obsBase (some .ON) 0 false).k4 = true ∧
      (runCycle obsBase (some .ON) 0 false).k5 = true ∧
      (runCycle obsBase (some .ON) 0 false).scores_doviz = 100 ∧
      (runCycle obsBase (some .ON) 0 false).scores_cds = 70 ∧
      (runCycle obsBase (some .ON) 0 false).scores_global = 100 ∧
      (runCycle obsBase (some .ON) 0 false).scores_faiz = 60 ∧
      (runCycle obsBase (some .ON) 0 false).scores_likidite = 70 ∧
      (runCycle obsBase (some .ON) 0 false).total = 85 ∧
      (runCycle obsBase (some .ON) 0 false).regime = .ON ∧
      (runCycle obsBase (some .ON) 0 false).new_weeks = 0 ∧
      (runCycle obsBase (some .ON) 0 false).adj_pos = 12 ∧
      (runCycle obsBase (some .ON) 0 false).adj_risk = 2.5) := by
  rw [runCycle_obsBase_eval]
  simp

/-- C2 (amended): end-to-end baseline scenario; all five gates pass, the
sub-scores are FX=70, Credit=100, Global=100, Rate=60, Liquidity=70, the
total is 84, the regime stays ON with pending counter 0, and the adjusted
budget equals the ON base budget (12 positions, 2.5 risk). -/
theorem baseline_scenario :
    (runCycle obsBase (some .ON) 0 false).k1 = true ∧
    (runCycle obsBase (some .ON) 0 false).k2 = true ∧
    (runCycle obsBase (some .ON) 0 false).k3 = true ∧
    (runCycle obsBase (some .ON) 0 false).k4 = true ∧
    (runCycle obsBase (some .ON) 0 false).k5 = true ∧
    (runCycle obsBase (some .ON) 0 false).scores_doviz = 70 ∧
    (runCycle obsBase (some .ON) 0 false).scores_cds = 100 ∧
    (runCycle obsBase (some .ON) 0 false).scores_global = 100 ∧
    (runCycle obsBase (some .ON) 0 false).scores_faiz = 60 ∧
    (runCycle obsBase (some .ON) 0 false).scores_likidite = 70 ∧
    (runCycle obsBase (some .ON) 0 false).total = 84 ∧
    (runCycle obsBase (some .ON) 0 false).regime = .ON ∧
    (runCycle obsBase (some .ON) 0 false).new_weeks = 0 ∧
    (runCycle obsBase (some .ON) 0 false).adj_pos = 12 ∧
    (runCycle obsBase (some .ON) 0 false).adj_risk = 2.5 := by
  rw [runCycle_obsBase_eval]
  simp

/-- C6 counterexample: for the out-of-range rate proxy 150 the sub-score
used in aggregation is 150, not the clamped 100 — the engine does not bound
the pass-through value. -/
theorem rate_proxy_not_clamped :
    ¬ (((runCycle obsFaiz150 (some .ON) 0 false).scores_faiz : ℚ) =
      clamp ((obsFaiz150.faiz_score : ℚ)) 0 100) := by
  have h : (runCycle obsFaiz150 (some .ON) 0 false).scores_faiz = (150 : ℤ) :=
    rfl
  have hf : obsFaiz150.faiz_score = (150 : ℤ) := rfl
  rw [h, hf]
  unfold clamp
  rw [min_eq_left (by norm_num), max_eq_right (by norm_num)]
  norm_num

/-- C6 (amended): the rate sub-score used in aggregation is the manually
supplied value passed through unchanged; the engine applies no clamping (the
input slider, outside the engine, is what restricts the value to [0,100]). -/
theorem rate_proxy_pass_through (o : Observation) (p : Option Regime)
    (w : ℕ) (mo : Bool) :
    (runCycle o p w mo).scores_faiz = o.faiz_score := rfl

/-- C7 (validation grading): confidence is LOW iff an error is present, else
MEDIUM iff a warning is present, else HIGH; and validity is false exactly
when an error is present, so warnings alone never make the result invalid. -/
theorem validation_grading (u c d v s : ℚ) :
    ((validate_data u c d v s).confidence = "LOW" ↔
      (validate_data u c d v s).errors ≠ []) ∧
    ((validate_data u c d v s).confidence = "MEDIUM" ↔
      ((validate_data u c d v s).errors = [] ∧
        (validate_data u c d v s).warnings ≠ [])) ∧
    ((validate_data u c d v s).confidence = "HIGH" ↔
      ((validate_data u c d v s).errors = [] ∧
        (validate_data u c d v s).warnings = [])) ∧
    ((validate_data u c d v s).is_valid = false ↔
      (validate_data u c d v s).errors ≠ []) :=
  grade_spec _ _

/-- The FX scorer is non-increasing in the absolute currency change. -/
theorem score_doviz_anti (x y : ℚ) (h : |x| ≤ |y|) :
    (score_doviz y).1 ≤ (score_doviz x).1 := by
  simp only [score_doviz]
  split_ifs <;> first | linarith | norm_num

/-- The credit scorer is non-increasing in the spread level for a fixed
weekly delta. -/
theorem score_cds_anti_level (l1 l2 d : ℚ) (h : l1 ≤ l2) :
    (score_cds l2 d).1 ≤ (score_cds l1 d).1 := by
  simp only [score_cds]
  split_ifs <;> first | linarith | norm_num

/-- The credit scorer is non-increasing in the weekly spread delta for a
fixed level. -/
theorem score_cds_anti_delta (l d1 d2 : ℚ) (h : d1 ≤ d2) :
    (score_cds l d2).1 ≤ (score_cds l d1).1 := by
  simp only [score_cds]
  split_ifs <;> first | linarith | norm_num

/-- The global scorer is non-increasing in the volatility index for a fixed
equity change. -/
theorem score_global_anti_vix (v1 v2 s : ℚ) (h : v1 ≤ v2) :
    (score_global v2 s).1 ≤ (score_global v1 s).1 := by
  simp only [score_global]
  split_ifs <;> first | linarith | norm_num

/-- The global scorer is non-decreasing in the global-equity weekly change
for a fixed volatility index. -/
theorem score_global_mono_sp500 (v s1 s2 : ℚ) (h : s1 ≤ s2) :
    (score_global v s1).1 ≤ (score_global v s2).1 := by
  simp only [score_global]
  split_ifs <;> first | linarith | norm_num

/-- The liquidity scorer is non-decreasing in the volume ratio. -/
theorem score_likidite_mono (r1 r2 : ℚ) (h : r1 ≤ r2) :
    (score_likidite r1).1 ≤ (score_likidite r2).1 := by
  simp only [score_likidite]
  split_ifs <;> first | linarith | norm_num

/-- C8 (scorer monotonicity): each factor scorer is monotone in its adverse
input — FX non-increasing in |currency change|; credit non-increasing in
level (fixed delta) and in delta (fixed level); global non-increasing in
volatility (fixed equity change) and non-decreasing in the equity change
(fixed volatility); liquidity non-decreasing in the volume ratio. -/
theorem scorer_monotonicity :
    (∀ x y : ℚ, |x| ≤ |y| → (score_doviz y).1 ≤ (score_doviz x).1) ∧
    (∀ l1 l2 d : ℚ, l1 ≤ l2 → (score_cds l2 d).1 ≤ (score_cds l1 d).1) ∧
    (∀ l d1 d2 : ℚ, d1 ≤ d2 → (score_cds l d2).1 ≤ (score_cds l d1).1) ∧
    (∀ v1 v2 s : ℚ, v1 ≤ v2 → (score_global v2 s).1 ≤ (score_global v1 s).1) ∧
    (∀ v s1 s2 : ℚ, s1 ≤ s2 → (score_global v s1).1 ≤ (score_global v s2).1) ∧
    (∀ r1 r2 : ℚ, r1 ≤ r2 → (score_likidite r1).1 ≤ (score_likidite r2).1) :=
  ⟨score_doviz_anti, score_cds_anti_level, score_cds_anti_delta,
    score_global_anti_vix, score_global_mono_sp500, score_likidite_mono⟩

/-- C8 witness: the monotonicity statements applied at concrete inputs. -/
theorem scorer_monotonicity_witness :
    (score_doviz 0.01).1 ≤ (score_doviz 0.001).1 ∧
    (score_cds 450 0).1 ≤ (score_cds 250 0).1 ∧
    (score_cds 250 60).1 ≤ (score_cds 250 0).1 ∧
    (score_global 28 0).1 ≤ (score_global 18 0).1 ∧
    (score_global 18 (-0.03)).1 ≤ (score_global 18 0).1 ∧
    (score_likidite 0.4).1 ≤ (score_likidite 1.3).1 :=
  ⟨scorer_monotonicity.1 0.001 0.01
      (by rw [abs_of_nonneg (by norm_num : (0:ℚ) ≤ 0.001),
          abs_of_nonneg (by norm_num : (0:ℚ) ≤ 0.01)]; norm_num),
    scorer_monotonicity.2.1 250 450 0 (by norm_num),
    scorer_monotonicity.2.2.1 250 0 60 (by norm_num),
    scorer_monotonicity.2.2.2.1 18 28 0 (by norm_num),
    scorer_monotonicity.2.2.2.2.1 18 (-0.03) 0 (by norm_num),
    scorer_monotonicity.2.2.2.2.2 0.4 1.3 (by norm_num)⟩

/-- C9 (budget adjustment): for every regime and reduction in (0, 0.5] the
adjusted positions are max(2, floor(base × (1 − r))), the adjusted risk is
base_risk × (1 − r) rounded to one decimal, and the stance is the cautious
label iff r ≥ 0.3; a zero reduction returns the base budget unchanged; for
the OFF regime at r = 0.5 the positions floor to 2; and the adjusted
positions never fall below 2 for any reduction. -/
theorem budget_adjustment :
    (∀ (r : Regime) (sr : ℚ), 0 < sr → sr ≤ 1/2 →
      (adjust_budget r sr).1 = max 2 ⌊((BASE_BUDGETS r).1 : ℚ) * (1 - sr)⌋ ∧
      (adjust_budget r sr).2.1 = round1 ((BASE_BUDGETS r).2.1 * (1 - sr)) ∧
      ((adjust_budget r sr).2.2 = "⚠️ DİKKATLİ" ↔ sr ≥ 0.3)) ∧
    (∀ r : Regime, adjust_budget r 0 = BASE_BUDGETS r) ∧
    ((adjust_budget .OFF (1/2)).1 = 2) ∧
    (∀ (r : Regime) (sr : ℚ), 2 ≤ (adjust_budget r sr).1) := by
  refine ⟨fun r sr h1 h2 => ?_, fun r => ?_, ?_, fun r sr => ?_⟩
  · simp only [adjust_budget]
    rw [if_pos h1]
    refine ⟨rfl, rfl, ?_⟩
    by_cases h3 : sr ≥ (0.3 : ℚ)
    · rw [if_pos h3]
      exact iff_of_true rfl h3
    · rw [if_neg h3]
      exact iff_of_false (by cases r <;> simp [BASE_BUDGETS]) h3
  · simp only [adjust_budget]
    rw [if_neg (lt_irrefl (0 : ℚ))]
  · norm_num [adjust_budget, BASE_BUDGETS]
  · simp only [adjust_budget]
    by_cases h : sr > 0
    · rw [if_pos h]
      exact le_max_left 2 _
    · rw [if_neg h]
      cases r <;> decide

/-- C9 witness: the OFF regime at reduction 1/2, where the position floor
binds. -/
theorem budget_adjustment_witness :
    (adjust_budget .OFF (1/2)).1 =
      max 2 ⌊((BASE_BUDGETS .OFF).1 : ℚ) * (1 - 1/2)⌋ ∧
    (adjust_budget .OFF (1/2)).2.1 =
      round1 ((BASE_BUDGETS .OFF).2.1 * (1 - 1/2)) ∧
    ((adjust_budget .OFF (1/2)).2.2 = "⚠️ DİKKATLİ" ↔ (1/2 : ℚ) ≥ 0.3) :=
  budget_adjustment.1 .OFF (1/2) (by norm_num) (by norm_num)

end MFS
